import Mathlib

/-!
Verification of the Plex-to-MPV synchronization tool (`plex_taiga_sync_GUI.py`)
against its natural-language specification.

The Python source is shallowly embedded below.  External effects (HTTP
responses from AniList/TVDB, the filesystem, directory listings, the MPV
named-pipe channel, process liveness) are modelled as explicit inputs, so
every function of the source becomes a pure, executable Lean function of
the program state plus those inputs.  GUI log lines and outgoing MPV
commands are modelled as an event trace.
-/

namespace PlexTaigaSync

/-! ### Title normalization (`normalize_title`, `clean_title`, lines 182-191)

Characters are handled through their code points so that the ASCII
lowercasing done by Python's `str.lower` on the relevant characters, the
character class `[^a-z0-9]`, the split class `[\(\[]` and whitespace
stripping are all plain arithmetic on `Char.toNat`. -/

/-- ASCII lowercasing, the fragment of Python `str.lower` relevant here:
code points 65-90 are shifted by 32, everything else is untouched. -/
def pyLower (c : Char) : Char :=
  if 65 ≤ c.toNat ∧ c.toNat ≤ 90 then Char.ofNat (c.toNat + 32) else c

/-- The character class `[a-z0-9]` kept by `re.sub(r'[^a-z0-9]', '', ...)`. -/
def isKeptChar (c : Char) : Bool :=
  (97 ≤ c.toNat ∧ c.toNat ≤ 122) ∨ (48 ≤ c.toNat ∧ c.toNat ≤ 57)

/-- The split class `[\(\[]` of `re.split` in `clean_title`. -/
def isSplitChar (c : Char) : Bool :=
  c = '(' ∨ c = '['

/-- Whitespace as stripped by Python `str.strip` (ASCII fragment). -/
def pyIsSpace (c : Char) : Bool :=
  c.toNat = 32 ∨ c.toNat = 9 ∨ c.toNat = 10 ∨ c.toNat = 13 ∨ c.toNat = 11 ∨ c.toNat = 12

/-- Python `str.strip`: drop whitespace from both ends. -/
def pyStrip (l : List Char) : List Char :=
  ((l.dropWhile pyIsSpace).reverse.dropWhile pyIsSpace).reverse

/-- `normalize_title` (line 182): on a falsy (empty) name return `""`,
otherwise lowercase and keep only `[a-z0-9]`. -/
def normalize_title (s : String) : String :=
  if s = "" then "" else ⟨(s.data.map pyLower).filter isKeptChar⟩

/-- `clean_title` (line 187): take everything before the first `(` or `[`,
strip whitespace, then `normalize_title`. -/
def clean_title (s : String) : String :=
  if s = "" then ""
  else normalize_title ⟨pyStrip (s.data.takeWhile (fun c => !isSplitChar c))⟩

/-! ### Metadata records and the AniList resolver (`get_anilist_metadata`, lines 204-254) -/

/-- The metadata record built at lines 238-245.  The synopsis is carried as
the provider's description text; the HTML-entity unescaping and tag-removal
of `strip_html_tags` are not modelled (no claim concerns the synopsis
content, only the record being stored identically under both cache keys). -/
structure Meta where
  id : Option Int
  romaji : String
  english : String
  native : String
  synopsis : String
  cover : Option String
deriving DecidableEq, Repr

/-- The `data.Media` object of a successful AniList GraphQL response. -/
structure MediaData where
  id : Option Int
  romaji : Option String
  english : Option String
  native : Option String
  synonyms : List String
  description : Option String
  coverExtraLarge : Option String
  coverLarge : Option String
deriving DecidableEq, Repr

/-- Outcome of the one AniList HTTP call: the request raised
(timeout/transport, or `r.json()` failed), returned a non-200 status, or
returned status 200 with an optional `Media` payload. -/
inductive AniListResp where
  | exn (msg : String)
  | httpError (code : Nat)
  | ok (media : Option MediaData)
deriving DecidableEq, Repr

/-- Python truthiness on an optional string: `None` and `""` are falsy. -/
def pyTruthyStr : Option String → Option String
  | none => none
  | some v => if v = "" then none else some v

/-- `A or B` on strings: `a` when truthy, else `b`. -/
def pyOrStr (a : Option String) (b : String) : String :=
  match pyTruthyStr a with
  | some v => v
  | none => b

/-- Candidate names built inside the 200-with-data branch (lines 227-235):
cleaned romaji/english/native when truthy, cleaned truthy synonyms and the
cleaned input title, as a set (deduplicated). -/
def anilistNames (title : String) (d : MediaData) : List String :=
  ((([d.romaji, d.english, d.native].filterMap pyTruthyStr).map clean_title)
    ++ ((d.synonyms.filter (fun s => s ≠ "")).map clean_title)
    ++ [clean_title title]).dedup

/-- The metadata dict built at lines 238-245. -/
def anilistMeta (d : MediaData) : Meta :=
  { id := d.id
    romaji := d.romaji.getD ""
    english := d.english.getD ""
    native := d.native.getD ""
    synopsis := d.description.getD ""
    cover := match pyTruthyStr d.coverExtraLarge with
             | some v => some v
             | none => d.coverLarge }

/-- The `try` block of `get_anilist_metadata` (lines 210-249): an
exception escapes as `.error`; a non-200 status or a missing `Media`
payload falls through (`.ok none`); otherwise names and record are built. -/
def get_anilist_try (title : String) (resp : AniListResp) :
    Except String (Option (List String × Meta)) :=
  match resp with
  | .exn m => .error m
  | .httpError _ => .ok none
  | .ok none => .ok none
  | .ok (some d) => .ok (some (anilistNames title d, anilistMeta d))

/-- `get_anilist_metadata` (line 204): the `except` arm and the fallback
at lines 252-254 turn every failure into the cleaned input title as sole
candidate with no record. -/
def get_anilist_metadata (title : String) (resp : AniListResp) :
    List String × Option Meta :=
  match get_anilist_try title resp with
  | .ok (some (ns, m)) => (ns, some m)
  | .ok none => ([clean_title title], none)
  | .error _ => ([clean_title title], none)

/-- Outcome of the TVDB lookup pair of HTTP calls (`get_tvdb_titles`,
lines 257-276): an exception, no auth token, a non-200 search status, or
a list of search items each with an optional name. -/
inductive TvdbResp where
  | exn (msg : String)
  | noToken
  | httpError (code : Nat)
  | ok (items : List (Option String))
deriving DecidableEq, Repr

/-- `get_tvdb_titles`: empty without an API key; on success the cleaned
truthy item names as a set; every failure yields the empty set. -/
def get_tvdb_titles (apiKey : Option String) (resp : TvdbResp) : List String :=
  match apiKey with
  | none => []
  | some _ =>
    match resp with
    | .ok items => (((items.filterMap id).filter (fun s => s ≠ "")).map clean_title).dedup
    | _ => []

/-! ### The match cache (`matches_cache`, `load_cache`, `save_cache`) -/

/-- A cache entry: the Python dicts hold an optional `"path"` plus the
optional `"anilist_id"`/`"meta"` fields added on a successful resolution
or by the background metadata store in `sync_loop`. -/
structure CacheEntry where
  path : Option String
  anilist_id : Option Int
  meta : Option Meta
deriving DecidableEq, Repr

/-- The in-memory `matches_cache` dict, as an association list.  Only the
lookup behaviour of the Python dict is relied on, not its iteration
order. -/
abbrev Cache := List (String × CacheEntry)

/-- `key in cache` / `cache[key]`: the binding under `k`, if any. -/
def cacheGet : Cache → String → Option CacheEntry
  | [], _ => none
  | kv :: t, k => if kv.1 = k then some kv.2 else cacheGet t k

/-- `cache.pop(key, None)`: remove the binding under `k`. -/
def cachePop : Cache → String → Cache
  | [], _ => []
  | kv :: t, k => if kv.1 = k then cachePop t k else kv :: cachePop t k

/-- `cache[key] = value` (dict assignment; insertion order not modelled). -/
def cacheSet (c : Cache) (k : String) (v : CacheEntry) : Cache :=
  (k, v) :: cachePop c k

/-! ### Folder matching and series-folder resolution (`find_series_folder`, lines 366-446) -/

/-- One entry of an `os.listdir` result together with its `os.path.isdir`
status. -/
structure DirEntry where
  name : String
  isDir : Bool
deriving DecidableEq, Repr

/-- Outcome of listing one root directory: the entries, or an exception
(the per-root `try` at lines 418-442 covers the whole listing). -/
inductive ListingResult where
  | ok (entries : List DirEntry)
  | failed (msg : String)
deriving DecidableEq, Repr

/-- The external world seen by one resolution: which paths exist
(`os.path.exists`), the AniList response, the TVDB key/response, and the
`ANIME_FOLDERS` roots with their listing outcomes. -/
structure ResolveEnv where
  fs : List String
  anilist : AniListResp
  tvdbKey : Option String
  tvdb : TvdbResp
  roots : List (String × ListingResult)
deriving DecidableEq, Repr

/-- `os.path.join` with an abstract separator. -/
def pathJoin (a b : String) : String := a ++ "/" ++ b

/-- Python `needle in hay` on character lists: some tail of `hay` starts
with `needle`. -/
def subSpanOf (needle : List Char) : List Char → Bool
  | [] => needle.isEmpty
  | c :: rest => needle.isPrefixOf (c :: rest) || subSpanOf needle rest

/-- `folder_name_matches` (line 367): equality, substring containment in
either direction, or a prefix in either direction, on non-empty cleaned
names. -/
def folder_name_matches (entry_clean candidate_clean : String) : Bool :=
  if entry_clean = "" ∨ candidate_clean = "" then false
  else if entry_clean = candidate_clean then true
  else if subSpanOf candidate_clean.data entry_clean.data then true
  else if subSpanOf entry_clean.data candidate_clean.data then true
  else if entry_clean.data.isPrefixOf candidate_clean.data
          ∨ candidate_clean.data.isPrefixOf entry_clean.data then true
  else false

/-- The inner loop of the folder scan (lines 419-440): the first directory
entry whose cleaned name matches any candidate is returned. -/
def scanEntries (base : String) (names : List String) : List DirEntry → Option String
  | [] => none
  | e :: rest =>
    if e.isDir then
      if names.any (fun c => folder_name_matches (clean_title e.name) c) then
        some (pathJoin base e.name)
      else scanEntries base names rest
    else scanEntries base names rest

/-- The outer loop over `ANIME_FOLDERS` (line 417): an unreadable root is
logged and skipped, the scan continues with the next root. -/
def scanRoots (names : List String) : List (String × ListingResult) → Option String
  | [] => none
  | (base, lr) :: rest =>
    match lr with
    | .failed _ => scanRoots names rest
    | .ok entries =>
      match scanEntries base names entries with
      | some full => some full
      | none => scanRoots names rest

/-- `f"guid:{plex_guid}" if plex_guid else None` (line 382): a falsy guid
(absent or empty) produces no key. -/
def guidKeyOf : Option String → Option String
  | none => none
  | some g => if g = "" then none else some ("guid:" ++ g)

/-- Result of probing one cache key (lines 385-393 / 396-405): a hit with
an existing path, an eviction of a stale entry (the popped cache is
flushed by `save_cache`), or no entry under the key. -/
inductive CacheStep where
  | hit (p : String)
  | evicted (c : Cache)
  | absent
deriving DecidableEq, Repr

/-- One cache probe: `if key in cache: path = entry.get("path"); if path
and os.path.exists(path): return path else: pop(key); save_cache`. -/
def tryCachedKey (fs : List String) (cache : Cache) (key : String) : CacheStep :=
  match cacheGet cache key with
  | none => .absent
  | some ent =>
    match ent.path with
    | none => .evicted (cachePop cache key)
    | some p => if p ≠ "" ∧ p ∈ fs then .hit p else .evicted (cachePop cache key)

/-- Result of a resolution: the optional found path, the cache after the
call, and every snapshot handed to `save_cache`, in order. -/
structure ResolveOut where
  result : Option String
  cache : Cache
  saves : List Cache
deriving DecidableEq, Repr

/-- The cache entry written on a successful match (lines 429-435):
`{"path": full}` updated with the AniList id and record when one was
obtained. -/
def foundEntry (full : String) : Option Meta → CacheEntry
  | some m => { path := some full, anilist_id := m.id, meta := some m }
  | none => { path := some full, anilist_id := none, meta := none }

/-- Stage 3 of `find_series_folder` (lines 407-446): build the candidate
set from AniList (plus the cleaned raw title and optional TVDB names),
scan the roots, and on a match write the entry under the guid key (when
present) and the title key, flush the cache, and return the path. -/
def resolveStage (title titleKey : String) (gk : Option String)
    (env : ResolveEnv) (cache : Cache) (saves : List Cache) : ResolveOut :=
  let al := get_anilist_metadata title env.anilist
  let names := (al.1 ++ [titleKey] ++ get_tvdb_titles env.tvdbKey env.tvdb).dedup
  match scanRoots names env.roots with
  | none => { result := none, cache := cache, saves := saves }
  | some full =>
    let ent := foundEntry full al.2
    let c1 := match gk with
              | some k => cacheSet cache k ent
              | none => cache
    let c2 := cacheSet c1 ("title:" ++ titleKey) ent
    { result := some full, cache := c2, saves := saves ++ [c2] }

/-- Stage 2 of `find_series_folder` (lines 396-405): the title-key cache
probe, falling through to resolution on a miss or after an eviction. -/
def titleStage (title titleKey : String) (gk : Option String)
    (env : ResolveEnv) (cache : Cache) (saves : List Cache) : ResolveOut :=
  match tryCachedKey env.fs cache ("title:" ++ titleKey) with
  | .hit p => { result := some p, cache := cache, saves := saves }
  | .evicted c => resolveStage title titleKey gk env c (saves ++ [c])
  | .absent => resolveStage title titleKey gk env cache saves

/-- `find_series_folder` (line 376): guid-key probe, then title-key probe,
then resolution. -/
def find_series_folder (title : String) (plex_guid : Option String)
    (env : ResolveEnv) (cache : Cache) : ResolveOut :=
  let titleKey := clean_title title
  let gk := guidKeyOf plex_guid
  match gk with
  | none => titleStage title titleKey gk env cache []
  | some k =>
    match tryCachedKey env.fs cache k with
    | .hit p => { result := some p, cache := cache, saves := [] }
    | .evicted c => titleStage title titleKey gk env c [c]
    | .absent => titleStage title titleKey gk env cache []

/-! ### Local episode finder (`find_local_episode`, lines 449-471) -/

/-- `int(x or 1)`: an absent/`None` or zero index becomes 1. -/
def pyOr1 : Option Int → Int
  | none => 1
  | some v => if v = 0 then 1 else v

/-- Python `f"{n:02}"`. -/
def padTwo (n : Int) : String :=
  if 0 ≤ n ∧ n < 10 then "0" ++ toString n else toString n

/-- The two search patterns of `find_local_episode` (lines 450-452, 466):
the zero-padded `s..e..` form and the unpadded `..x..` form, both built
from the coerced indices. -/
def episodePatterns (season_num episode_num : Option Int) : String × String :=
  let s := pyOr1 season_num
  let e := pyOr1 episode_num
  ("s" ++ padTwo s ++ "e" ++ padTwo e, toString s ++ "x" ++ toString e)

/-- Python `needle in hay` on strings. -/
def containsSub (hay needle : String) : Bool :=
  subSpanOf needle.data hay.data

/-- `pyLower` mapped over a string (`file.lower()`). -/
def pyLowerStr (s : String) : String := ⟨s.data.map pyLower⟩

/-- The recognized video extensions (line 460). -/
def videoExts : List String :=
  [".mkv", ".mp4", ".avi", ".m4v", ".ts", ".webm"]

/-- `low.endswith(tuple-of-extensions)`. -/
def hasVideoExt (low : String) : Bool :=
  videoExts.any (fun e => e.data.isSuffixOf low.data)

/-- The per-file loop of `find_local_episode` (lines 458-470): for each
file with a video extension, the padded pattern is tried, then the
unpadded one. -/
def searchFiles (pattern alt root : String) : List String → Option String
  | [] => none
  | f :: rest =>
    let low := pyLowerStr f
    if hasVideoExt low then
      if containsSub low pattern then some (pathJoin root f)
      else if containsSub low alt then some (pathJoin root f)
      else searchFiles pattern alt root rest
    else searchFiles pattern alt root rest

/-- The `os.walk` loop: each walked directory with its files, in
traversal order. -/
def searchWalk (pattern alt : String) : List (String × List String) → Option String
  | [] => none
  | (root, files) :: rest =>
    match searchFiles pattern alt root files with
    | some f => some f
    | none => searchWalk pattern alt rest

/-- `find_local_episode` (line 449): coerce the indices, build the
patterns, resolve the series folder, then walk it.  The `walks` input
maps a folder path to its `os.walk` listing. -/
def find_local_episode (title : String) (season_num episode_num : Option Int)
    (plex_guid : Option String) (env : ResolveEnv)
    (walks : List (String × List (String × List String))) (cache : Cache) : ResolveOut :=
  let (pattern, alt) := episodePatterns season_num episode_num
  let fo := find_series_folder title plex_guid env cache
  match fo.result with
  | none => { result := none, cache := fo.cache, saves := fo.saves }
  | some folder =>
    let walk := ((walks.find? (fun w => w.1 == folder)).map Prod.snd).getD []
    { result := searchWalk pattern alt walk, cache := fo.cache, saves := fo.saves }

/-! ### MPV control channel (`get_mpv_playback_time`, lines 522-531) -/

/-- One `ReadFile` outcome on the named pipe: the call raised, or it
delivered a text that either fails `json.loads`/`float` (`none`) or
parses to an object whose `"data"` field is the given optional number. -/
inductive ReadMsg where
  | ioFail (msg : String)
  | msg (parsedData : Option (Option ℚ))
deriving DecidableEq, Repr

/-- The named pipe as seen by one query: whether `CreateFile` succeeds,
and the stream of successive read outcomes. -/
structure Pipe where
  openOk : Bool
  reads : List ReadMsg
deriving DecidableEq, Repr

/-- `get_mpv_playback_time` (line 522): open the pipe, write the
`get_property time-pos` command, read exactly one response, parse it and
return `float(j.get("data") or 0.0)`; any failure surfaces as the
`RuntimeError` of line 531.  The second component counts the responses
consumed from the pipe. -/
def get_mpv_playback_time (p : Pipe) : Except String ℚ × Nat :=
  if p.openOk then
    match p.reads with
    | [] => (.error "Failed to query mpv time: read", 0)
    | .ioFail m :: _ => (.error ("Failed to query mpv time: " ++ m), 1)
    | .msg none :: _ => (.error "Failed to query mpv time: parse", 1)
    | .msg (some d) :: _ => (.ok (d.getD 0), 1)
  else (.error "Failed to query mpv time: open", 0)

/-- `int(x)` on a rational: truncation toward zero. -/
def pyInt (q : ℚ) : Int :=
  if 0 ≤ q then ⌊q⌋ else ⌈q⌉

/-! ### The synchronization loop (`sync_loop`, lines 553-630) -/

/-- A structured MPV IPC command (the payloads sent by
`send_mpv_command`). -/
inductive MpvCommand where
  | seek (pos : Int) (mode : String)
  | setPause (b : Bool)
deriving DecidableEq, Repr

/-- One observable action of a cycle: an IPC command, a GUI log line, a
panel update, stopping or launching MPV, a cache flush, or the
end-of-cycle sleep. -/
inductive Event where
  | mpvCmd (c : MpvCommand)
  | log (msg : String)
  | panelUpdate (m : Option Meta)
  | stopMpv
  | launchMpv (path : String)
  | save (c : Cache)
  | sleep
deriving DecidableEq, Repr

/-- The remote Plex session as read by one cycle (lines 560-566). -/
structure SessionInfo where
  guid : Option String
  grandparentTitle : Option String
  title : String
  parentIndex : Option Int
  index : Option Int
  playerState : String
  viewOffset : Option Nat
deriving DecidableEq, Repr

/-- The mutable state carried across cycles: `matches_cache`,
`last_played_guid` and `was_paused`. -/
structure SyncState where
  cache : Cache
  last_played_guid : Option String
  was_paused : Bool
deriving DecidableEq, Repr

/-- The external world of one cycle.  `session` is the outcome of
`get_user_session` (which can itself raise).  `panelFault` injects an
exception from the GUI panel update (`update_info_panel_from_meta`), the
one statement of the metadata block that runs outside the inner `try`.
The three `mpvAlive` fields are the successive `is_mpv_running()` answers
at lines 594, 604 and 614, and `mpvAliveIdle` the one at line 625. -/
structure CycleEnv where
  running : Bool
  session : Except String (Option SessionInfo)
  panelFault : Option String
  anilistPanel : AniListResp
  resolve : ResolveEnv
  walks : List (String × List (String × List String))
  pipe : Pipe
  mpvAlive1 : Bool
  mpvAlive2 : Bool
  mpvAlive3 : Bool
  mpvAliveIdle : Bool

/-- `plex_pos = (getattr(session, "viewOffset", 0) or 0) / 1000.0`. -/
def plexPosOf (s : SessionInfo) : ℚ :=
  (s.viewOffset.getD 0 : ℚ) / 1000

/-- The metadata/info-panel block (lines 568-591): pick a cached record
(guid key first, `elif` title key), update the panel from it, or fetch
from AniList inside a `try`, updating the panel and pre-storing the
record under the title key.  Returns events, the updated cache, and an
uncaught exception when the unprotected panel update raises. -/
def metaBlock (env : CycleEnv) (cache : Cache) (guid : Option String)
    (title : String) : List Event × Cache × Option String :=
  let titleKey := "title:" ++ clean_title title
  let cached_meta : Option Meta :=
    match guidKeyOf guid with
    | some gk =>
      match cacheGet cache gk with
      | some ent => ent.meta
      | none => (cacheGet cache titleKey).bind (fun e => e.meta)
    | none => (cacheGet cache titleKey).bind (fun e => e.meta)
  match cached_meta with
  | some m =>
    match env.panelFault with
    | some ex => ([], cache, some ex)
    | none => ([.panelUpdate (some m)], cache, none)
  | none =>
    match (get_anilist_metadata title env.anilistPanel).2 with
    | none => ([], cache, none)
    | some m =>
      match env.panelFault with
      | some _ => ([], cache, none)
      | none =>
        let entry := (cacheGet cache titleKey).getD
          { path := none, anilist_id := none, meta := none }
        let entry' := { entry with meta := some m, anilist_id := m.id }
        let cache' := cacheSet cache titleKey entry'
        ([.panelUpdate (some m), .save cache'], cache', none)

/-- The drift-correction block (lines 593-602): when MPV is running and
the session is not paused, query the playback time; on success seek when
the delta exceeds 5 seconds; a query failure is logged and skipped. -/
def driftBlock (env : CycleEnv) (is_paused : Bool) (plex_pos : ℚ) : List Event :=
  if env.mpvAlive1 && !is_paused then
    match (get_mpv_playback_time env.pipe).1 with
    | .ok mpv_time =>
      if |mpv_time - plex_pos| > 5 then
        [.mpvCmd (.seek (pyInt plex_pos) "absolute"), .log "Synced MPV to Plex time"]
      else []
    | .error m => [.log ("Could not query MPV time: " ++ m)]
  else []

/-- The relaunch block (lines 604-611): on a new guid or a dead player,
stop MPV, search for the local episode file and launch it, remembering
the guid; on a miss the guid is left as it was. -/
def launchBlock (env : CycleEnv) (cache : Cache) (lastGuid guid : Option String)
    (title : String) (season episode : Int) :
    List Event × Cache × Option String :=
  if guid ≠ lastGuid ∨ env.mpvAlive2 = false then
    let fe := find_local_episode title (some season) (some episode) guid
      env.resolve env.walks cache
    match fe.result with
    | some f =>
      ([Event.stopMpv] ++ fe.saves.map Event.save ++ [Event.launchMpv f], fe.cache, guid)
    | none =>
      ([Event.stopMpv] ++ fe.saves.map Event.save ++ [Event.log "Local file not found."],
       fe.cache, lastGuid)
  else ([], cache, lastGuid)

/-- The pause-mirroring block (lines 613-622): with a live player, a
pause command on a false-to-true edge of the remote pause flag, a resume
command on a true-to-false edge, updating the remembered flag; otherwise
nothing. -/
def pauseMirror (alive is_paused was_paused : Bool) : List Event × Bool :=
  if alive then
    if is_paused && !was_paused then
      ([.mpvCmd (.setPause true), .log "Paused MPV to match Plex"], true)
    else if !is_paused && was_paused then
      ([.mpvCmd (.setPause false), .log "Resumed MPV to match Plex"], false)
    else ([], was_paused)
  else ([], was_paused)

/-- `pauseMirror` iterated over the remote pause flags of consecutive
cycles with a live player. -/
def pauseRun (was_paused : Bool) : List Bool → List Event × Bool
  | [] => ([], was_paused)
  | p :: rest =>
    ((pauseMirror true p was_paused).1
        ++ (pauseRun (pauseMirror true p was_paused).2 rest).1,
     (pauseRun (pauseMirror true p was_paused).2 rest).2)

/-- The body of one cycle, i.e. the `try` block at lines 557-627:
events emitted so far, the state after the cycle, and an uncaught
exception (after which the remaining blocks do not run). -/
def syncCycleBody (env : CycleEnv) (st : SyncState) :
    List Event × SyncState × Option String :=
  match env.session with
  | .error m => ([], st, some m)
  | .ok none =>
    ((if env.mpvAliveIdle then [Event.stopMpv] else []),
     { st with last_played_guid := none }, none)
  | .ok (some s) =>
    let guid := s.guid
    let title := pyOrStr s.grandparentTitle s.title
    let season := pyOr1 s.parentIndex
    let episode := pyOr1 s.index
    let is_paused : Bool := s.playerState = "paused"
    let plex_pos := plexPosOf s
    let (mEvs, cache1, mExn) := metaBlock env st.cache guid title
    match mExn with
    | some ex => (Event.log "Looking for session" :: mEvs, { st with cache := cache1 }, some ex)
    | none =>
      let dEvs := driftBlock env is_paused plex_pos
      let (lEvs, cache2, lastGuid') :=
        launchBlock env cache1 st.last_played_guid guid title season episode
      let (pEvs, wasP') := pauseMirror env.mpvAlive3 is_paused st.was_paused
      (Event.log "Looking for session" :: mEvs ++ dEvs ++ lEvs ++ pEvs,
       { cache := cache2, last_played_guid := lastGuid', was_paused := wasP' }, none)

/-- One full cycle (lines 556-630): the body under the top-level `try`,
the `except` arm logging any uncaught exception, and the unconditional
`time.sleep(POLL_INTERVAL)`. -/
def syncCycle (env : CycleEnv) (st : SyncState) : List Event × SyncState :=
  let (evs, st', exn) := syncCycleBody env st
  (evs ++ (match exn with
           | some m => [Event.log ("Unexpected error in sync loop: " ++ m)]
           | none => []) ++ [Event.sleep], st')

/-- `sync_loop` (line 553): `while sync_running:` over the per-cycle
environments; the flag observed at the top of each iteration is
`env.running`, and a cleared flag ends the loop. -/
def sync_loop : List CycleEnv → SyncState → List Event
  | [], _ => []
  | env :: rest, st =>
    if env.running then
      let (evs, st') := syncCycle env st
      evs ++ sync_loop rest st'
    else []

/-- Recognizer for pause/resume IPC commands in a trace. -/
def isSetPauseCmd : Event → Bool
  | .mpvCmd (.setPause _) => true
  | _ => false

/-- Recognizer for absolute-seek IPC commands in a trace. -/
def isSeekCmd : Event → Bool
  | .mpvCmd (.seek _ _) => true
  | _ => false

/-! ### Concrete inputs used by the witnesses below -/

/-- A resolution environment with an empty filesystem-existence set, a
timed-out AniList call, no TVDB key, and one root "lib" holding a
"Naruto" folder. -/
def c7Env : ResolveEnv :=
  { fs := [], anilist := .exn "t", tvdbKey := none, tvdb := .noToken,
    roots := [("lib", .ok [⟨"Naruto", true⟩])] }

/-- The initial loop state: empty cache, no remembered guid, not paused. -/
def st0 : SyncState := { cache := [], last_played_guid := none, was_paused := false }

/-- A resolution environment whose external lookups all fail and with no
library roots. -/
def emptyResolveEnv : ResolveEnv :=
  { fs := [], anilist := .exn "t", tvdbKey := none, tvdb := .noToken, roots := [] }

/-- A session playing season 1 episode 1 of "Naruto" at offset 100500 ms
(100.5 s). -/
def c3Sess : SessionInfo :=
  { guid := some "abc", grandparentTitle := some "Naruto", title := "ep",
    parentIndex := some 1, index := some 1, playerState := "playing",
    viewOffset := some 100500 }

/-- A cycle environment for `c3Sess` whose player is alive and reports
position 0 over the pipe. -/
def c3Env : CycleEnv :=
  { running := true, session := .ok (some c3Sess), panelFault := none,
    anilistPanel := .exn "t", resolve := emptyResolveEnv, walks := [],
    pipe := ⟨true, [.msg (some (some 0))]⟩,
    mpvAlive1 := true, mpvAlive2 := true, mpvAlive3 := true, mpvAliveIdle := false }

/-- `c3Sess` at offset 94000 ms (94 s). -/
def c2Sess : SessionInfo := { c3Sess with viewOffset := some 94000 }

/-- A cycle environment for `c2Sess` whose player reports position 100. -/
def c2Env : CycleEnv :=
  { c3Env with session := .ok (some c2Sess), pipe := ⟨true, [.msg (some (some 100))]⟩ }

/-- A cycle whose session query raises. -/
def c1Env : CycleEnv := { c3Env with session := .error "boom" }

/-- A cycle whose control channel cannot be opened. -/
def c4Env : CycleEnv := { c3Env with pipe := ⟨false, []⟩ }

/-- `c3Sess` paused on the remote side. -/
def c5Sess : SessionInfo := { c3Sess with playerState := "paused" }

/-- A cycle environment for `c5Sess`; the drift query is not reached
because the session is paused. -/
def c5Env : CycleEnv := { c3Env with session := .ok (some c5Sess), mpvAlive1 := false }

/-! ## Helper lemmas -/

theorem string_eta (s : String) : (⟨s.data⟩ : String) = s := by
  cases s
  rfl

theorem takeWhile_of_all {α : Type} {p : α → Bool} :
    ∀ l : List α, (∀ c ∈ l, p c = true) → l.takeWhile p = l := by
  intro l h
  induction l with
  | nil => rfl
  | cons a t ih =>
    simp [List.takeWhile_cons, h a (by simp), ih (fun c hc => h c (by simp [hc]))]

theorem dropWhile_of_none {α : Type} {p : α → Bool} :
    ∀ l : List α, (∀ c ∈ l, p c = false) → l.dropWhile p = l := by
  intro l h
  induction l with
  | nil => rfl
  | cons a t _ =>
    simp [List.dropWhile_cons, h a (by simp)]

theorem kept_pyLower {c : Char} (h : isKeptChar c = true) : pyLower c = c := by
  simp only [isKeptChar, decide_eq_true_eq] at h
  simp only [pyLower, ite_eq_right_iff]
  intro hc
  omega

theorem kept_not_split {c : Char} (h : isKeptChar c = true) : isSplitChar c = false := by
  simp only [isKeptChar, decide_eq_true_eq] at h
  simp only [isSplitChar, decide_eq_false_iff_not, not_or]
  refine ⟨fun hc => ?_, fun hc => ?_⟩ <;> subst hc <;> revert h <;> decide

theorem kept_not_space {c : Char} (h : isKeptChar c = true) : pyIsSpace c = false := by
  simp only [isKeptChar, decide_eq_true_eq] at h
  simp only [pyIsSpace, decide_eq_false_iff_not]
  omega

theorem mem_normalize_kept {s : String} {c : Char}
    (h : c ∈ (normalize_title s).data) : isKeptChar c = true := by
  unfold normalize_title at h
  split at h
  · simp at h
  · exact (List.mem_filter.mp h).2

theorem normalize_of_kept (d : List Char) (h : ∀ c ∈ d, isKeptChar c = true) :
    normalize_title ⟨d⟩ = ⟨d⟩ := by
  unfold normalize_title
  split
  · exact (by assumption : (⟨d⟩ : String) = "").symm
  · show (⟨(d.map pyLower).filter isKeptChar⟩ : String) = ⟨d⟩
    rw [List.map_congr_left (fun c hc => kept_pyLower (h c hc))]
    simp [List.filter_eq_self.mpr h]

theorem clean_of_kept (d : List Char) (h : ∀ c ∈ d, isKeptChar c = true) :
    clean_title ⟨d⟩ = ⟨d⟩ := by
  unfold clean_title
  split
  · exact (by assumption : (⟨d⟩ : String) = "").symm
  · show normalize_title ⟨pyStrip (d.takeWhile _)⟩ = ⟨d⟩
    rw [takeWhile_of_all d (fun c hc => by rw [kept_not_split (h c hc)]; rfl)]
    unfold pyStrip
    rw [dropWhile_of_none d (fun c hc => kept_not_space (h c hc)),
      dropWhile_of_none d.reverse (fun c hc => kept_not_space (h c (List.mem_reverse.mp hc))),
      List.reverse_reverse]
    exact normalize_of_kept d h

theorem mem_clean_kept {s : String} {c : Char}
    (h : c ∈ (clean_title s).data) : isKeptChar c = true := by
  unfold clean_title at h
  split at h
  · simp at h
  · exact mem_normalize_kept h

theorem cacheGet_pop_self (c : Cache) (k : String) : cacheGet (cachePop c k) k = none := by
  induction c with
  | nil => rfl
  | cons kv t ih =>
    by_cases h : kv.1 = k <;> simp [cachePop, cacheGet, h, ih]

theorem cacheGet_pop_ne (c : Cache) (k k' : String) (h : k' ≠ k) :
    cacheGet (cachePop c k) k' = cacheGet c k' := by
  have hkk : k ≠ k' := fun he => h he.symm
  induction c with
  | nil => rfl
  | cons kv t ih =>
    by_cases h1 : kv.1 = k
    · simp [cachePop, cacheGet, h1, hkk, ih]
    · by_cases h2 : kv.1 = k' <;> simp [cachePop, cacheGet, h1, h2, h, ih]

theorem cacheGet_set_self (c : Cache) (k : String) (v : CacheEntry) :
    cacheGet (cacheSet c k v) k = some v := by
  simp [cacheGet, cacheSet]

theorem cacheGet_set_ne (c : Cache) (k k' : String) (v : CacheEntry) (h : k' ≠ k) :
    cacheGet (cacheSet c k v) k' = cacheGet c k' := by
  have h2 : k ≠ k' := fun he => h he.symm
  simp only [cacheSet, cacheGet, h2, if_false]
  exact cacheGet_pop_ne c k k' h

/-! ### Block lemmas for the synchronization cycle -/

theorem metaBlock_no_seek (env : CycleEnv) (cache : Cache) (guid : Option String)
    (title : String) (pos : Int) (mode : String) :
    Event.mpvCmd (.seek pos mode) ∉ (metaBlock env cache guid title).1 := by
  simp only [metaBlock]
  split
  · split <;> simp
  · split
    · simp
    · split <;> simp

theorem metaBlock_no_setPause (env : CycleEnv) (cache : Cache) (guid : Option String)
    (title : String) (b : Bool) :
    Event.mpvCmd (.setPause b) ∉ (metaBlock env cache guid title).1 := by
  simp only [metaBlock]
  split
  · split <;> simp
  · split
    · simp
    · split <;> simp

theorem metaBlock_exn_none (env : CycleEnv) (cache : Cache) (guid : Option String)
    (title : String) (h : env.panelFault = none) :
    (metaBlock env cache guid title).2.2 = none := by
  simp only [metaBlock, h]
  split
  · rfl
  · split
    · rfl
    · rfl

theorem launchBlock_no_seek (env : CycleEnv) (cache : Cache) (lastGuid guid : Option String)
    (title : String) (season episode : Int) (pos : Int) (mode : String) :
    Event.mpvCmd (.seek pos mode)
      ∉ (launchBlock env cache lastGuid guid title season episode).1 := by
  simp only [launchBlock]
  split
  · split <;> simp [List.mem_append, List.mem_map]
  · simp

theorem launchBlock_no_setPause (env : CycleEnv) (cache : Cache) (lastGuid guid : Option String)
    (title : String) (season episode : Int) (b : Bool) :
    Event.mpvCmd (.setPause b)
      ∉ (launchBlock env cache lastGuid guid title season episode).1 := by
  simp only [launchBlock]
  split
  · split <;> simp [List.mem_append, List.mem_map]
  · simp

theorem pauseMirror_no_seek (alive p w : Bool) (pos : Int) (mode : String) :
    Event.mpvCmd (.seek pos mode) ∉ (pauseMirror alive p w).1 := by
  unfold pauseMirror
  split
  · split
    · simp
    · split <;> simp
  · simp

theorem pauseMirror_flag (p w : Bool) : (pauseMirror true p w).2 = p := by
  cases p <;> cases w <;> rfl

theorem pauseMirror_filter (p w : Bool) :
    (pauseMirror true p w).1.filter isSetPauseCmd
      = if p ≠ w then [Event.mpvCmd (.setPause p)] else [] := by
  cases p <;> cases w <;> rfl

theorem driftBlock_no_setPause (env : CycleEnv) (is_paused : Bool) (plex_pos : ℚ) (b : Bool) :
    Event.mpvCmd (.setPause b) ∉ driftBlock env is_paused plex_pos := by
  unfold driftBlock
  split
  · split
    · split <;> simp
    · simp
  · simp

theorem driftBlock_seek_iff (env : CycleEnv) (is_paused : Bool) (plex_pos v : ℚ)
    (halive : env.mpvAlive1 = true) (hp : is_paused = false)
    (hok : (get_mpv_playback_time env.pipe).1 = .ok v) (pos : Int) (mode : String) :
    Event.mpvCmd (.seek pos mode) ∈ driftBlock env is_paused plex_pos ↔
      pos = pyInt plex_pos ∧ mode = "absolute" ∧ |v - plex_pos| > 5 := by
  simp only [driftBlock, halive, hp, hok]
  by_cases hd : |v - plex_pos| > 5
  · simp [hd]
  · simp [hd]

theorem driftBlock_error_no_seek (env : CycleEnv) (is_paused : Bool) (plex_pos : ℚ)
    (m : String) (herr : (get_mpv_playback_time env.pipe).1 = .error m)
    (pos : Int) (mode : String) :
    Event.mpvCmd (.seek pos mode) ∉ driftBlock env is_paused plex_pos := by
  simp only [driftBlock, herr]
  split
  · simp
  · simp

/-! ### The cycle in its triple-of-blocks form -/

theorem syncCycleBody_ok (env : CycleEnv) (st : SyncState) (s : SessionInfo)
    (hs : env.session = .ok (some s)) (hp : env.panelFault = none) :
    syncCycleBody env st =
      (Event.log "Looking for session"
          :: (metaBlock env st.cache s.guid (pyOrStr s.grandparentTitle s.title)).1
          ++ driftBlock env (decide (s.playerState = "paused")) (plexPosOf s)
          ++ (launchBlock env
              (metaBlock env st.cache s.guid (pyOrStr s.grandparentTitle s.title)).2.1
              st.last_played_guid s.guid (pyOrStr s.grandparentTitle s.title)
              (pyOr1 s.parentIndex) (pyOr1 s.index)).1
          ++ (pauseMirror env.mpvAlive3 (decide (s.playerState = "paused")) st.was_paused).1,
        { cache := (launchBlock env
              (metaBlock env st.cache s.guid (pyOrStr s.grandparentTitle s.title)).2.1
              st.last_played_guid s.guid (pyOrStr s.grandparentTitle s.title)
              (pyOr1 s.parentIndex) (pyOr1 s.index)).2.1,
          last_played_guid := (launchBlock env
              (metaBlock env st.cache s.guid (pyOrStr s.grandparentTitle s.title)).2.1
              st.last_played_guid s.guid (pyOrStr s.grandparentTitle s.title)
              (pyOr1 s.parentIndex) (pyOr1 s.index)).2.2,
          was_paused :=
            (pauseMirror env.mpvAlive3 (decide (s.playerState = "paused")) st.was_paused).2 },
        none) := by
  have hm := metaBlock_exn_none env st.cache s.guid (pyOrStr s.grandparentTitle s.title) hp
  rcases hmb : metaBlock env st.cache s.guid (pyOrStr s.grandparentTitle s.title)
    with ⟨mEvs, cache1, mExn⟩
  rw [hmb] at hm
  have hmx : mExn = none := hm
  subst hmx
  rcases hlb : launchBlock env cache1 st.last_played_guid s.guid
      (pyOrStr s.grandparentTitle s.title) (pyOr1 s.parentIndex) (pyOr1 s.index)
    with ⟨lEvs, cache2, lg⟩
  rcases hpm : pauseMirror env.mpvAlive3 (decide (s.playerState = "paused")) st.was_paused
    with ⟨pEvs, w⟩
  simp only [syncCycleBody, hs, hmb, hlb, hpm]

theorem syncCycle_eq (env : CycleEnv) (st : SyncState) :
    syncCycle env st
      = ((syncCycleBody env st).1
          ++ (match (syncCycleBody env st).2.2 with
              | some m => [Event.log ("Unexpected error in sync loop: " ++ m)]
              | none => []) ++ [Event.sleep],
         (syncCycleBody env st).2.1) := by
  rcases hb : syncCycleBody env st with ⟨evs, st2, exn⟩
  simp only [syncCycle, hb]

/-- A seek command appears in a healthy cycle exactly when it appears in
the drift-correction block. -/
theorem seek_in_cycle_iff (env : CycleEnv) (st : SyncState) (s : SessionInfo)
    (pos : Int) (mode : String)
    (hs : env.session = .ok (some s)) (hp : env.panelFault = none) :
    Event.mpvCmd (.seek pos mode) ∈ (syncCycle env st).1 ↔
      Event.mpvCmd (.seek pos mode)
        ∈ driftBlock env (decide (s.playerState = "paused")) (plexPosOf s) := by
  rw [syncCycle_eq, syncCycleBody_ok env st s hs hp]
  simp [List.mem_append, metaBlock_no_seek, launchBlock_no_seek, pauseMirror_no_seek]

theorem pauseMirror_steady (p : Bool) : pauseMirror true p p = ([], p) := by
  cases p <;> rfl

theorem isSetPauseCmd_shape {e : Event} (h : isSetPauseCmd e = true) :
    ∃ b, e = .mpvCmd (.setPause b) := by
  cases e with
  | mpvCmd c =>
    cases c with
    | seek p m => exact absurd h (by simp [isSetPauseCmd])
    | setPause b => exact ⟨b, rfl⟩
  | log m => exact absurd h (by simp [isSetPauseCmd])
  | panelUpdate m => exact absurd h (by simp [isSetPauseCmd])
  | stopMpv => exact absurd h (by simp [isSetPauseCmd])
  | launchMpv p => exact absurd h (by simp [isSetPauseCmd])
  | save c => exact absurd h (by simp [isSetPauseCmd])
  | sleep => exact absurd h (by simp [isSetPauseCmd])

theorem filter_setPause_nil {l : List Event}
    (h : ∀ b, Event.mpvCmd (.setPause b) ∉ l) : l.filter isSetPauseCmd = [] := by
  rw [List.filter_eq_nil_iff]
  intro e he hp
  rcases isSetPauseCmd_shape hp with ⟨b, rfl⟩
  exact h b he

/-! ## Claims -/

/-- C9: title normalization is idempotent — `clean_title (clean_title s) =
clean_title s` (and likewise for `normalize_title`) for every string — and
case/punctuation-insensitive; in particular the cleaned form of
`"Attack on Titan (2013)"` equals that of `"attack on titan"`. -/
theorem claim_C9_normalization_idempotent :
    (∀ s : String, clean_title (clean_title s) = clean_title s)
    ∧ (∀ s : String, normalize_title (normalize_title s) = normalize_title s)
    ∧ clean_title "Attack on Titan (2013)" = clean_title "attack on titan" := by
  refine ⟨fun s => ?_, fun s => ?_, by decide⟩
  · calc clean_title (clean_title s)
        = clean_title ⟨(clean_title s).data⟩ := by rw [string_eta]
      _ = ⟨(clean_title s).data⟩ := clean_of_kept _ (fun c hc => mem_clean_kept hc)
      _ = clean_title s := string_eta _
  · calc normalize_title (normalize_title s)
        = normalize_title ⟨(normalize_title s).data⟩ := by rw [string_eta]
      _ = ⟨(normalize_title s).data⟩ :=
          normalize_of_kept _ (fun c hc => mem_normalize_kept hc)
      _ = normalize_title s := string_eta _

/-- C10: a season or episode index that is absent/None or 0 is coerced
to 1 before either search pattern is built, so both the padded
`s..e..` pattern and the unpadded `..x..` pattern — and the whole episode
search — treat a season-0 session as season 1. -/
theorem claim_C10_falsy_index_is_one :
    (∀ en : Option Int,
      episodePatterns none en = episodePatterns (some 1) en
      ∧ episodePatterns (some 0) en = episodePatterns (some 1) en)
    ∧ (∀ sn : Option Int,
      episodePatterns sn none = episodePatterns sn (some 1)
      ∧ episodePatterns sn (some 0) = episodePatterns sn (some 1))
    ∧ (∀ (title : String) (en : Option Int) (g : Option String) (env : ResolveEnv)
        (walks : List (String × List (String × List String))) (cache : Cache),
      find_local_episode title (some 0) en g env walks cache
        = find_local_episode title (some 1) en g env walks cache
      ∧ find_local_episode title none en g env walks cache
        = find_local_episode title (some 1) en g env walks cache) := by
  refine ⟨fun en => ⟨?_, ?_⟩, fun sn => ⟨?_, ?_⟩, fun title en g env walks cache => ⟨?_, ?_⟩⟩ <;>
    simp [episodePatterns, find_local_episode, pyOr1]

/-- C8: when the AniList call fails — the request or JSON parse raised,
the status was not 200, or the payload had no `Media` — the resolver
returns the cleaned input title as the sole candidate together with no
metadata record; even an exception inside the `try` body never escapes
to the caller. -/
theorem claim_C8_anilist_failure_fallback :
    ∀ (title : String) (resp : AniListResp),
      ((∀ d : MediaData, resp ≠ .ok (some d)) →
        get_anilist_metadata title resp = ([clean_title title], none))
      ∧ (∀ m, get_anilist_try title resp = .error m →
        get_anilist_metadata title resp = ([clean_title title], none)) := by
  intro title resp
  constructor
  · intro h
    cases resp with
    | exn m => rfl
    | httpError c => rfl
    | ok media =>
      cases media with
      | none => rfl
      | some d => exact absurd rfl (h d)
  · intro m hm
    cases resp with
    | exn m2 => rfl
    | httpError c => simp [get_anilist_try] at hm
    | ok media => cases media <;> simp [get_anilist_try] at hm

/-- C8 witness: a timed-out AniList call degrades to the cleaned input
title and no record. -/
theorem claim_C8_witness :
    get_anilist_metadata "Naruto" (.exn "timeout") = ([clean_title "Naruto"], none) :=
  (claim_C8_anilist_failure_fallback "Naruto" (.exn "timeout")).1
    (fun _ h => AniListResp.noConfusion h)

theorem guid_key_ne_title_key (g t : String) : "guid:" ++ g ≠ "title:" ++ t := by
  intro h
  have hd := congrArg String.data h
  rw [String.data_append, String.data_append] at hd
  exact absurd (List.head_eq_of_cons_eq hd) (by decide)

/-- C6: a cache lookup only ever returns a path that exists in the
filesystem; an entry whose path is absent or no longer exists is evicted
during the lookup, the popped cache is the one handed to `save_cache`,
and the lookup falls through to the next stage as a miss. -/
theorem claim_C6_cache_lookup_validates :
    ∀ (env : ResolveEnv) (cache : Cache) (key title g : String) (ent : CacheEntry)
      (p : String) (saves : List Cache),
      (tryCachedKey env.fs cache key = .hit p → p ∈ env.fs)
      ∧ (cacheGet cache key = some ent →
          (∀ q, ent.path = some q → q = "" ∨ q ∉ env.fs) →
          tryCachedKey env.fs cache key = .evicted (cachePop cache key))
      ∧ (guidKeyOf (some g) = some key →
          tryCachedKey env.fs cache key = .evicted (cachePop cache key) →
          find_series_folder title (some g) env cache
            = titleStage title (clean_title title) (some key) env (cachePop cache key)
                [cachePop cache key])
      ∧ (tryCachedKey env.fs cache ("title:" ++ clean_title title)
            = .evicted (cachePop cache ("title:" ++ clean_title title)) →
          titleStage title (clean_title title) (guidKeyOf (some g)) env cache saves
            = resolveStage title (clean_title title) (guidKeyOf (some g)) env
                (cachePop cache ("title:" ++ clean_title title))
                (saves ++ [cachePop cache ("title:" ++ clean_title title)])) := by
  intro env cache key title g ent p saves
  refine ⟨?_, ?_, ?_, ?_⟩
  · intro h
    rcases hg : cacheGet cache key with _ | e
    · simp only [tryCachedKey, hg] at h
      exact CacheStep.noConfusion h
    · simp only [tryCachedKey, hg] at h
      rcases hp : e.path with _ | q
      · simp only [hp] at h
        exact CacheStep.noConfusion h
      · simp only [hp] at h
        by_cases hc : q ≠ "" ∧ q ∈ env.fs
        · rw [if_pos hc] at h
          cases h
          exact hc.2
        · rw [if_neg hc] at h
          exact CacheStep.noConfusion h
  · intro hg hstale
    simp only [tryCachedKey, hg]
    rcases hp : ent.path with _ | q
    · rfl
    · show (if q ≠ "" ∧ q ∈ env.fs then CacheStep.hit q
          else CacheStep.evicted (cachePop cache key))
        = CacheStep.evicted (cachePop cache key)
      rcases hstale q hp with h1 | h1
      · rw [if_neg]
        rintro ⟨hne, _⟩
        exact hne h1
      · rw [if_neg]
        rintro ⟨_, hmem⟩
        exact h1 hmem
  · intro hk hev
    simp only [find_series_folder, hk, hev]
  · intro hev
    simp only [titleStage, hev]

/-- C6 witness: a stale guid entry (its stored path no longer exists) is
evicted and the lookup proceeds with the popped cache. -/
theorem claim_C6_witness :
    tryCachedKey ["lib/Naruto"]
        [("guid:abc", { path := some "gone", anilist_id := none, meta := none })]
        "guid:abc"
      = .evicted (cachePop
          [("guid:abc", { path := some "gone", anilist_id := none, meta := none })]
          "guid:abc") :=
  (claim_C6_cache_lookup_validates
      { fs := ["lib/Naruto"], anilist := .exn "t", tvdbKey := none, tvdb := .noToken,
        roots := [] }
      [("guid:abc", { path := some "gone", anilist_id := none, meta := none })]
      "guid:abc" "Naruto" "abc"
      { path := some "gone", anilist_id := none, meta := none } "" []).2.1
    rfl
    (fun q hq => by
      cases hq
      right
      decide)

/-- C7: every successful resolution for a session with a (non-empty) guid
writes the same entry — resolved path plus the metadata record obtained
for this title, if any — under both the guid key and the title key,
flushes the final cache, and returns the resolved path. -/
theorem claim_C7_store_both_keys :
    ∀ (title g full : String) (env : ResolveEnv) (cache : Cache) (saves : List Cache)
      (k : String),
      guidKeyOf (some g) = some k →
      scanRoots (((get_anilist_metadata title env.anilist).1 ++ [clean_title title]
          ++ get_tvdb_titles env.tvdbKey env.tvdb).dedup) env.roots = some full →
      ∃ ent : CacheEntry,
        (resolveStage title (clean_title title) (some k) env cache saves).result = some full
        ∧ cacheGet (resolveStage title (clean_title title) (some k) env cache saves).cache k
            = some ent
        ∧ cacheGet (resolveStage title (clean_title title) (some k) env cache saves).cache
            ("title:" ++ clean_title title) = some ent
        ∧ ent.path = some full
        ∧ ent.meta = (get_anilist_metadata title env.anilist).2
        ∧ (resolveStage title (clean_title title) (some k) env cache saves).saves
            = saves ++ [(resolveStage title (clean_title title) (some k) env cache saves).cache] := by
  intro title g full env cache saves k hk hscan
  have hkg : k = "guid:" ++ g := by
    simp only [guidKeyOf] at hk
    by_cases hg : g = ""
    · rw [if_pos hg] at hk
      exact Option.noConfusion hk
    · rw [if_neg hg] at hk
      exact (Option.some_inj.mp hk).symm
  have hne : k ≠ "title:" ++ clean_title title := by
    rw [hkg]
    exact guid_key_ne_title_key g (clean_title title)
  have heq :
      resolveStage title (clean_title title) (some k) env cache saves =
        { result := some full,
          cache := cacheSet
            (cacheSet cache k (foundEntry full (get_anilist_metadata title env.anilist).2))
            ("title:" ++ clean_title title)
            (foundEntry full (get_anilist_metadata title env.anilist).2),
          saves := saves ++ [cacheSet
            (cacheSet cache k (foundEntry full (get_anilist_metadata title env.anilist).2))
            ("title:" ++ clean_title title)
            (foundEntry full (get_anilist_metadata title env.anilist).2)] } := by
    simp only [resolveStage]
    rw [hscan]
  refine ⟨foundEntry full (get_anilist_metadata title env.anilist).2, ?_, ?_, ?_, ?_, ?_, ?_⟩
  · rw [heq]
  · rw [heq]
    exact (cacheGet_set_ne _ _ _ _ hne).trans (cacheGet_set_self _ _ _)
  · rw [heq]
    exact cacheGet_set_self _ _ _
  · rcases (get_anilist_metadata title env.anilist).2 with _ | m <;> rfl
  · rcases (get_anilist_metadata title env.anilist).2 with _ | m <;> rfl
  · rw [heq]

/-- C7 witness: resolving "Naruto" with guid "abc" against a library
holding a "Naruto" folder stores the path under both keys and flushes. -/
theorem claim_C7_witness :
    ∃ ent : CacheEntry,
      (resolveStage "Naruto" (clean_title "Naruto") (some "guid:abc") c7Env [] []).result
          = some "lib/Naruto"
      ∧ cacheGet (resolveStage "Naruto" (clean_title "Naruto") (some "guid:abc")
          c7Env [] []).cache "guid:abc" = some ent
      ∧ cacheGet (resolveStage "Naruto" (clean_title "Naruto") (some "guid:abc")
          c7Env [] []).cache ("title:" ++ clean_title "Naruto") = some ent
      ∧ ent.path = some "lib/Naruto"
      ∧ ent.meta = (get_anilist_metadata "Naruto" c7Env.anilist).2
      ∧ (resolveStage "Naruto" (clean_title "Naruto") (some "guid:abc") c7Env [] []).saves
          = [] ++ [(resolveStage "Naruto" (clean_title "Naruto") (some "guid:abc")
              c7Env [] []).cache] :=
  claim_C7_store_both_keys "Naruto" "abc" "lib/Naruto" c7Env [] [] "guid:abc" rfl (by decide)

/-- C1: every cycle of `sync_loop` catches any exception raised in its
body at the top level and logs it, sleeps after the cycle regardless of
outcome, and proceeds to the next cycle; the loop produces no further
cycle only when the running flag observed at the top of the iteration is
cleared. -/
theorem claim_C1_loop_never_dies :
    ∀ (env : CycleEnv) (rest : List CycleEnv) (st : SyncState),
      (syncCycle env st).1.getLast? = some Event.sleep
      ∧ (∀ m, (syncCycleBody env st).2.2 = some m →
          Event.log ("Unexpected error in sync loop: " ++ m) ∈ (syncCycle env st).1)
      ∧ sync_loop (env :: rest) st
          = (if env.running = true
             then (syncCycle env st).1 ++ sync_loop rest (syncCycle env st).2
             else [])
      ∧ (sync_loop (env :: rest) st = [] ↔ env.running = false) := by
  intro env rest st
  have hlast : (syncCycle env st).1.getLast? = some Event.sleep := by
    simp only [syncCycle_eq]
    exact List.getLast?_concat _
  have hloop : sync_loop (env :: rest) st
      = (if env.running = true
         then (syncCycle env st).1 ++ sync_loop rest (syncCycle env st).2
         else []) := by
    rcases hcy : syncCycle env st with ⟨evs, st2⟩
    by_cases hr : env.running = true
    · simp [sync_loop, hr, hcy]
    · simp [sync_loop, hr]
  refine ⟨hlast, ?_, hloop, ?_⟩
  · intro m hm
    simp only [syncCycle_eq, hm]
    simp
  · by_cases hr : env.running = true
    · rw [hloop, if_pos hr]
      constructor
      · intro hnil
        have h1 := (List.append_eq_nil.mp hnil).1
        rw [h1] at hlast
        exact absurd hlast (by simp)
      · intro hfalse
        exact Bool.noConfusion (hr.symm.trans hfalse)
    · rw [hloop, if_neg hr]
      simp at hr
      simp [hr]

/-- C1 witness: a cycle whose session query raises logs the error, still
sleeps, and the loop recurses into the next cycle. -/
theorem claim_C1_witness :
    Event.log ("Unexpected error in sync loop: " ++ "boom") ∈ (syncCycle c1Env st0).1
    ∧ sync_loop [c1Env] st0
        = (syncCycle c1Env st0).1 ++ sync_loop [] (syncCycle c1Env st0).2
    ∧ (syncCycle c1Env st0).1.getLast? = some Event.sleep := by
  have h := claim_C1_loop_never_dies c1Env [] st0
  refine ⟨h.2.1 "boom" rfl, ?_, h.1⟩
  rw [h.2.2.1, if_pos (show c1Env.running = true from rfl)]

/-- C2: in a healthy cycle with a live player, an unpaused session and a
successful position query answering `v`, an absolute-seek command is
issued if and only if `|v - remote| > 5`; a difference of exactly 5
issues no seek. -/
theorem claim_C2_drift_threshold :
    ∀ (env : CycleEnv) (st : SyncState) (s : SessionInfo) (v : ℚ),
      env.session = .ok (some s) →
      env.panelFault = none →
      env.mpvAlive1 = true →
      s.playerState ≠ "paused" →
      (get_mpv_playback_time env.pipe).1 = .ok v →
      ((∃ pos mode, Event.mpvCmd (.seek pos mode) ∈ (syncCycle env st).1)
        ↔ |v - plexPosOf s| > 5) := by
  intro env st s v hs hp ha hps hok
  have hpd : (decide (s.playerState = "paused")) = false := by simp [hps]
  constructor
  · rintro ⟨pos, mode, hmem⟩
    rw [seek_in_cycle_iff env st s pos mode hs hp] at hmem
    exact ((driftBlock_seek_iff env _ (plexPosOf s) v ha hpd hok pos mode).mp hmem).2.2
  · intro hd
    exact ⟨pyInt (plexPosOf s), "absolute",
      (seek_in_cycle_iff env st s _ _ hs hp).mpr
        ((driftBlock_seek_iff env _ (plexPosOf s) v ha hpd hok _ _).mpr ⟨rfl, rfl, hd⟩)⟩

/-- C2 witness: remote 94 s, local 100 s — delta 6 exceeds 5, a seek is
issued. -/
theorem claim_C2_witness :
    (∃ pos mode, Event.mpvCmd (.seek pos mode) ∈ (syncCycle c2Env st0).1)
    ∧ plexPosOf c2Sess = 94 := by
  have hpp : plexPosOf c2Sess = 94 := by norm_num [plexPosOf, c2Sess, c3Sess]
  refine ⟨(claim_C2_drift_threshold c2Env st0 c2Sess 100 rfl rfl rfl (by decide) rfl).mpr ?_,
    hpp⟩
  rw [hpp]
  rw [show (100 : ℚ) - 94 = 6 by norm_num, abs_of_pos (by norm_num)]
  norm_num

/-- C3 counterexample: at remote position 100.5 s (viewOffset 100500 ms)
and local position 0, the seek command carries 100, which is not the
remote position — the claim that the seek carries the remote value for
every remote position fails. -/
theorem claim_C3_counterexample :
    Event.mpvCmd (.seek 100 "absolute") ∈ (syncCycle c3Env st0).1
    ∧ plexPosOf c3Sess = 201/2
    ∧ (∀ pos : Int, Event.mpvCmd (.seek pos "absolute") ∈ (syncCycle c3Env st0).1 →
        (pos : ℚ) ≠ plexPosOf c3Sess) := by
  have hpp : plexPosOf c3Sess = 201/2 := by norm_num [plexPosOf, c3Sess]
  have hok : (get_mpv_playback_time c3Env.pipe).1 = .ok 0 := rfl
  have hpd : (decide (c3Sess.playerState = "paused")) = false := by decide
  have hd : |(0 : ℚ) - plexPosOf c3Sess| > 5 := by
    rw [hpp, show (0 : ℚ) - 201/2 = -(201/2) by ring, abs_neg,
      abs_of_pos (by norm_num)]
    norm_num
  have hi : pyInt (plexPosOf c3Sess) = 100 := by
    rw [hpp]
    unfold pyInt
    rw [if_pos (by norm_num)]
    norm_num
  refine ⟨?_, hpp, ?_⟩
  · exact (seek_in_cycle_iff c3Env st0 c3Sess 100 "absolute" rfl rfl).mpr
      ((driftBlock_seek_iff c3Env _ (plexPosOf c3Sess) 0 rfl hpd hok 100 "absolute").mpr
        ⟨hi.symm, rfl, hd⟩)
  · intro pos hmem
    have h2 := ((driftBlock_seek_iff c3Env _ (plexPosOf c3Sess) 0 rfl hpd hok pos "absolute").mp
      ((seek_in_cycle_iff c3Env st0 c3Sess pos "absolute" rfl rfl).mp hmem)).1
    rw [h2, hi, hpp]
    norm_num

/-- C3 (amended): whenever drift correction triggers, the absolute-seek
command carries the remote position truncated to an integer
(`int(plex_pos)`, i.e. its floor, positions being non-negative), for
every remote position value — not the untruncated remote position. -/
theorem claim_C3_seek_carries_truncated_position :
    ∀ (env : CycleEnv) (st : SyncState) (s : SessionInfo) (v : ℚ),
      env.session = .ok (some s) →
      env.panelFault = none →
      env.mpvAlive1 = true →
      s.playerState ≠ "paused" →
      (get_mpv_playback_time env.pipe).1 = .ok v →
      (|v - plexPosOf s| > 5 →
        Event.mpvCmd (.seek (pyInt (plexPosOf s)) "absolute") ∈ (syncCycle env st).1)
      ∧ (∀ pos mode, Event.mpvCmd (.seek pos mode) ∈ (syncCycle env st).1 →
          pos = pyInt (plexPosOf s) ∧ mode = "absolute") := by
  intro env st s v hs hp ha hps hok
  have hpd : (decide (s.playerState = "paused")) = false := by simp [hps]
  constructor
  · intro hd
    exact (seek_in_cycle_iff env st s _ _ hs hp).mpr
      ((driftBlock_seek_iff env _ (plexPosOf s) v ha hpd hok _ _).mpr ⟨rfl, rfl, hd⟩)
  · intro pos mode hmem
    have h2 := (driftBlock_seek_iff env _ (plexPosOf s) v ha hpd hok pos mode).mp
      ((seek_in_cycle_iff env st s pos mode hs hp).mp hmem)
    exact ⟨h2.1, h2.2.1⟩

/-- C3 witness: at remote 100.5 s and local 0 the cycle issues the seek
carrying the truncated position. -/
theorem claim_C3_witness :
    Event.mpvCmd (.seek (pyInt (plexPosOf c3Sess)) "absolute") ∈ (syncCycle c3Env st0).1 := by
  apply (claim_C3_seek_carries_truncated_position c3Env st0 c3Sess 0 rfl rfl rfl
    (by decide) rfl).1
  have hpp : plexPosOf c3Sess = 201/2 := by norm_num [plexPosOf, c3Sess]
  rw [hpp, show (0 : ℚ) - 201/2 = -(201/2) by ring, abs_neg, abs_of_pos (by norm_num)]
  norm_num

/-- C4: every position query either reads exactly one response from the
channel and returns the value parsed from it, or fails with a channel
error (channel unopenable, read failure, or malformed response); and the
caller treats a failed query as unknown — the cycle issues no seek, no
exception escapes the body, and the cycle still ends with its sleep. -/
theorem claim_C4_query_reads_one_response :
    ∀ (p : Pipe) (env : CycleEnv) (st : SyncState) (s : SessionInfo) (m : String),
      ((∃ d : Option ℚ, p.reads.head? = some (.msg (some d))
          ∧ get_mpv_playback_time p = (.ok (d.getD 0), 1))
        ∨ (∃ e, (get_mpv_playback_time p).1 = .error e))
      ∧ (env.session = .ok (some s) → env.panelFault = none →
          (get_mpv_playback_time env.pipe).1 = .error m →
          (∀ pos mode, Event.mpvCmd (.seek pos mode) ∉ (syncCycle env st).1)
          ∧ (syncCycleBody env st).2.2 = none
          ∧ (syncCycle env st).1.getLast? = some Event.sleep) := by
  intro p env st s m
  constructor
  · rcases hop : p.openOk with _ | _
    · right
      refine ⟨"Failed to query mpv time: open", ?_⟩
      simp [get_mpv_playback_time, hop]
    · rcases hr : p.reads with _ | ⟨r, rest⟩
      · right
        refine ⟨"Failed to query mpv time: read", ?_⟩
        simp [get_mpv_playback_time, hop, hr]
      · rcases r with m2 | d2
        · right
          refine ⟨"Failed to query mpv time: " ++ m2, ?_⟩
          simp [get_mpv_playback_time, hop, hr]
        · rcases d2 with _ | d3
          · right
            refine ⟨"Failed to query mpv time: parse", ?_⟩
            simp [get_mpv_playback_time, hop, hr]
          · left
            exact ⟨d3, by simp [hr], by simp [get_mpv_playback_time, hop, hr]⟩
  · intro hs hp herr
    refine ⟨?_, ?_, ?_⟩
    · intro pos mode hmem
      rw [seek_in_cycle_iff env st s pos mode hs hp] at hmem
      exact driftBlock_error_no_seek env _ _ m herr pos mode hmem
    · rw [syncCycleBody_ok env st s hs hp]
    · simp only [syncCycle_eq]
      exact List.getLast?_concat _

/-- C4 witness: with the channel unopenable, the query fails, the cycle
issues no seek, no exception escapes, and the cycle sleeps. -/
theorem claim_C4_witness :
    (∀ pos mode, Event.mpvCmd (.seek pos mode) ∉ (syncCycle c4Env st0).1)
    ∧ (syncCycleBody c4Env st0).2.2 = none
    ∧ (syncCycle c4Env st0).1.getLast? = some Event.sleep :=
  (claim_C4_query_reads_one_response c4Env.pipe c4Env st0 c3Sess
      "Failed to query mpv time: open").2 rfl rfl rfl

/-- C5: with a live player, the pause/resume commands of a cycle are
exactly one `set pause` carrying the remote flag when it differs from the
remembered flag, and none when it agrees; the remembered flag is updated
to the remote flag; and across any number of consecutive cycles with a
steady flag equal to the remembered one, zero pause/resume commands are
issued. -/
theorem claim_C5_pause_mirroring :
    ∀ (env : CycleEnv) (st : SyncState) (s : SessionInfo),
      (env.session = .ok (some s) → env.panelFault = none → env.mpvAlive3 = true →
        ((syncCycle env st).1.filter isSetPauseCmd
            = (if (decide (s.playerState = "paused")) ≠ st.was_paused
               then [Event.mpvCmd (.setPause (decide (s.playerState = "paused")))]
               else [])
          ∧ (syncCycle env st).2.was_paused = decide (s.playerState = "paused")))
      ∧ (∀ (n : Nat) (p : Bool), (pauseRun p (List.replicate n p)).1 = []) := by
  intro env st s
  constructor
  · intro hs hp ha
    have h1 := filter_setPause_nil
      (fun b => metaBlock_no_setPause env st.cache s.guid (pyOrStr s.grandparentTitle s.title) b)
    have h2 := filter_setPause_nil
      (l := driftBlock env (decide (s.playerState = "paused")) (plexPosOf s))
      (fun b => driftBlock_no_setPause env (decide (s.playerState = "paused")) (plexPosOf s) b)
    have h3 := filter_setPause_nil
      (fun b => launchBlock_no_setPause env
        (metaBlock env st.cache s.guid (pyOrStr s.grandparentTitle s.title)).2.1
        st.last_played_guid s.guid (pyOrStr s.grandparentTitle s.title)
        (pyOr1 s.parentIndex) (pyOr1 s.index) b)
    have h4 := pauseMirror_filter (decide (s.playerState = "paused")) st.was_paused
    constructor
    · simp only [syncCycle_eq, syncCycleBody_ok env st s hs hp, ha]
      simp [List.filter_append, List.filter_cons, h1, h2, h3, h4, isSetPauseCmd]
    · simp [syncCycle_eq, syncCycleBody_ok env st s hs hp, ha, pauseMirror_flag]
  · intro n p
    induction n with
    | zero => rfl
    | succ k ih =>
      rw [List.replicate_succ]
      simp [pauseRun, pauseMirror_steady, ih]

/-- C5 witness: the remote flag flips to paused while the remembered flag
is false — exactly one pause command, and the flag is remembered. -/
theorem claim_C5_witness :
    (syncCycle c5Env st0).1.filter isSetPauseCmd = [Event.mpvCmd (.setPause true)]
    ∧ (syncCycle c5Env st0).2.was_paused = true := by
  have h := (claim_C5_pause_mirroring c5Env st0 c5Sess).1 rfl rfl rfl
  rcases h with ⟨h1, h2⟩
  constructor
  · rw [h1]
    decide
  · rw [h2]
    decide

end PlexTaigaSync
